import Mathlib

/-!
Verification development for the Moonraker Engage chatbot backend.

Python strings are modelled as `List Char`; machine-level details (timestamps,
Python object identity) are modelled as explicit `Nat` ticks and pure state
passing.  External LLM calls (DSPy / PydanticAI) are modelled as oracle
parameters: the functions below are parametric in the values those calls
return, and fallible steps are modelled with `Except`.
-/

namespace Moonraker

/-- Lowercasing of a Python string (`str.lower`), modelled characterwise. -/
def lowerStr (s : List Char) : List Char := s.map Char.toLower

/-- Test whether `pat` is an initial segment of `s`. -/
def strStarts : List Char → List Char → Bool
  | [], _ => true
  | _ :: _, [] => false
  | a :: as, b :: bs => if a = b then strStarts as bs else false

/-- Python substring containment `needle in hay` for strings. -/
def containsSub : List Char → List Char → Bool
  | [], needle => needle.isEmpty
  | c :: rest, needle => strStarts needle (c :: rest) || containsSub rest needle

/-- Python `any(k in message.lower() for k in kws)` where the keywords are
already lowercase literals. -/
def containsAny (message : List Char) (kws : List (List Char)) : Bool :=
  kws.any (fun k => containsSub (lowerStr message) k)

/-- Patient risk assessment levels (`RiskLevel` in `src/models/patient.py`). -/
inductive RiskLevel where
  | low
  | moderate
  | high
  | crisis
deriving DecidableEq

/-- String value of a risk level (the Python enum's `.value`). -/
def RiskLevel.value : RiskLevel → List Char
  | .low => "low".data
  | .moderate => "moderate".data
  | .high => "high".data
  | .crisis => "crisis".data

/-- Patient consent status (`ConsentStatus` in `src/models/patient.py`). -/
inductive ConsentStatus where
  | pending
  | granted
  | revoked
  | expired
deriving DecidableEq

/-- Conversation entry (`ConversationEntry` in `src/models/patient.py`). -/
structure ConversationEntry where
  timestamp : Nat
  messageType : List Char
  content : List Char
  riskIndicators : List (List Char) := []
  escalationTriggered : Bool := false
  therapistNotified : Bool := false
deriving DecidableEq

/-- Crisis alert (`CrisisAlert` in `src/models/patient.py`). -/
structure CrisisAlert where
  patientId : List Char
  alertType : List Char
  severity : List Char
  triggerMessage : List Char
  aiAssessment : List Char
  recommendedAction : List Char
  createdAt : Nat
  acknowledgedByTherapist : Bool := false
deriving DecidableEq

/-- Context for mental health conversations (`MentalHealthContext`). -/
structure MentalHealthContext where
  patientId : List Char
  therapistId : List Char
  sessionId : Option (List Char) := none
  conversationHistory : List ConversationEntry := []
  patientRiskLevel : RiskLevel := .low
  crisisKeywordsDetected : List (List Char) := []
  therapeuticGoals : List (List Char) := []
  therapistPreferences : List (List Char × List Char) := []
deriving DecidableEq

/-- Structured AI response (`AIResponse` in `mental_health_agent.py`). -/
structure AIResponse where
  message : List Char
  riskAssessment : RiskLevel
  crisisIndicators : List (List Char) := []
  therapeuticTechniquesUsed : List (List Char) := []
  escalationRequired : Bool := false
  followUpNeeded : Bool := false
  sessionNotes : Option (List Char) := none
deriving DecidableEq

/-- Output of the DSPy crisis detector (`CrisisDetectionSignature`): all three
fields are strings produced by the LLM; the agent compares
`immediate_response_needed` against the string `"true"`. -/
structure CrisisPrediction where
  riskAssessment : List Char
  crisisIndicators : List (List Char)
  immediateResponseNeeded : List Char
deriving DecidableEq

/-- The fixed `crisis_keywords` list of `MentalHealthAgent.__init__`. -/
def crisisKeywords : List (List Char) :=
  [ "suicide".data, "kill myself".data, "end my life".data, "want to die".data,
    "better off dead".data, "suicide plan".data, "suicidal".data,
    "end it all".data, "take my own life".data,
    "cut myself".data, "hurt myself".data, "self harm".data, "self-harm".data,
    "cutting".data, "burning myself".data, "punish myself".data,
    "can't go on".data, "hopeless".data, "no way out".data, "give up".data,
    "worthless".data, "emergency".data, "crisis".data, "breakdown".data,
    "losing control".data,
    "hearing voices".data, "voices telling me".data, "paranoid".data,
    "conspiracy".data, "they're watching".data, "not real".data,
    "hallucination".data ]

/-- Keyword-scan stage of `MentalHealthAgent._detect_crisis`:
`[keyword for keyword in self.crisis_keywords if keyword.lower() in message.lower()]`. -/
def detectedKeywords (message : List Char) : List (List Char) :=
  crisisKeywords.filter (fun k => containsSub (lowerStr message) (lowerStr k))

/-- Result dictionary of `MentalHealthAgent._detect_crisis`. -/
structure CrisisResult where
  riskLevel : List Char
  crisisIndicators : List (List Char)
  immediateResponse : Bool
deriving DecidableEq

/-- Embedding of `MentalHealthAgent._detect_crisis`.  The Python code sends the
keyword-scan result together with the DSPy prediction through
`list(set(...))`; membership in a Python set-roundtrip coincides with
membership in `List.dedup` of the concatenation, which is how it is modelled
(set iteration order is unspecified in Python). -/
def detectCrisis (pred : CrisisPrediction) (message : List Char) : CrisisResult :=
  { riskLevel := pred.riskAssessment
    crisisIndicators := (detectedKeywords message ++ pred.crisisIndicators).dedup
    immediateResponse := pred.immediateResponseNeeded = "true".data }

/-- Fixed crisis-protocol text of `MentalHealthAgent._handle_crisis_response`. -/
def crisisResponseText : List Char :=
  ("I'm very concerned about what you've shared. Your safety is the most important thing right now.\n\n**Immediate Resources:**\n• Crisis Text Line: Text HOME to 741741\n• 988 Suicide & Crisis Lifeline: Call or text 988\n• Emergency Services: Call 911\n\nI'm notifying your therapist immediately so they can provide the support you need.\n\nYou are not alone in this. There are people who want to help you through this difficult time. Please reach out to one of these resources right away.\n\nIs there someone safe you can be with right now?").data

/-- Embedding of `MentalHealthAgent._handle_crisis_response`. -/
def handleCrisisResponse (message : List Char) (_ctx : MentalHealthContext) : AIResponse :=
  { message := crisisResponseText
    riskAssessment := .crisis
    crisisIndicators := ["crisis_protocol_activated".data]
    therapeuticTechniquesUsed := ["crisis_intervention".data, "safety_planning".data]
    escalationRequired := true
    followUpNeeded := true
    sessionNotes := some ("CRISIS ALERT: Patient expressed crisis indicators in message: '".data
      ++ message.take 100 ++ "...'".data) }

/-- Embedding of `MentalHealthAgent._generate_therapeutic_response`.
`agentResult` is the oracle value the PydanticAI agent run would return in the
non-crisis branch. -/
def generateTherapeuticResponse (agentResult : AIResponse) (message : List Char)
    (ctx : MentalHealthContext) (crisisResult : CrisisResult) : AIResponse :=
  if crisisResult.immediateResponse then handleCrisisResponse message ctx
  else agentResult

/-- Indicator keywords for `alert_type = "suicide_ideation"` in
`MentalHealthAgent._create_crisis_alert`. -/
def alertSuicideIndicators : List (List Char) :=
  ["suicide".data, "kill myself".data, "end my life".data]

/-- Indicator keywords for `alert_type = "self_harm"`. -/
def alertSelfHarmIndicators : List (List Char) :=
  ["cut myself".data, "hurt myself".data, "self harm".data]

/-- Indicator keywords for `alert_type = "psychosis_indicators"`. -/
def alertPsychosisIndicators : List (List Char) :=
  ["voices".data, "paranoid".data, "conspiracy".data]

/-- Python `", ".join(xs)`. -/
def joinSep (sep : List Char) : List (List Char) → List Char
  | [] => []
  | [x] => x
  | x :: y :: rest => x ++ sep ++ joinSep sep (y :: rest)

/-- Embedding of `MentalHealthAgent._create_crisis_alert`. -/
def createCrisisAlert (now : Nat) (patientMessage : List Char)
    (aiResponse : AIResponse) (ctx : MentalHealthContext) : CrisisAlert :=
  let alertType : List Char :=
    if containsAny patientMessage alertSuicideIndicators then "suicide_ideation".data
    else if containsAny patientMessage alertSelfHarmIndicators then "self_harm".data
    else if containsAny patientMessage alertPsychosisIndicators then "psychosis_indicators".data
    else "general_crisis".data
  let severity : List Char :=
    if aiResponse.riskAssessment = .high then "high".data
    else if aiResponse.riskAssessment = .moderate then "medium".data
    else "critical".data
  { patientId := ctx.patientId
    alertType := alertType
    severity := severity
    triggerMessage := patientMessage
    aiAssessment := "Risk Level: ".data ++ aiResponse.riskAssessment.value
      ++ ". Crisis indicators: ".data ++ joinSep ", ".data aiResponse.crisisIndicators
    recommendedAction := "Immediate therapist contact required. Consider safety planning and crisis intervention.".data
    createdAt := now }

/-- Embedding of `MentalHealthAgent.process_message` (the non-raising path;
audit logging is effect-free for the returned values).  `pred` and
`agentResult` are the LLM oracle outputs for the two model calls; `now` is the
current clock tick.  Returns the response, the optional crisis alert, and the
updated context. -/
def processMessage (pred : CrisisPrediction) (agentResult : AIResponse) (now : Nat)
    (patientMessage : List Char) (ctx : MentalHealthContext) :
    AIResponse × Option CrisisAlert × MentalHealthContext :=
  let crisisResult := detectCrisis pred patientMessage
  let aiResponse := generateTherapeuticResponse agentResult patientMessage ctx crisisResult
  let crisisAlert : Option CrisisAlert :=
    if aiResponse.escalationRequired then
      some (createCrisisAlert now patientMessage aiResponse ctx)
    else none
  let entry : ConversationEntry :=
    { timestamp := now
      messageType := "ai_response".data
      content := aiResponse.message
      riskIndicators := aiResponse.crisisIndicators
      escalationTriggered := aiResponse.escalationRequired
      therapistNotified := crisisAlert.isSome }
  let ctx2 := { ctx with
    conversationHistory := ctx.conversationHistory ++ [entry]
    patientRiskLevel := aiResponse.riskAssessment }
  (aiResponse, crisisAlert, ctx2)

/-! ### Sales chatbot (`src/ai/sales_chatbot.py`) -/

/-- Generic Python exception carrying its message. -/
structure PyErr where
  msg : List Char
deriving DecidableEq

/-- Chat message on a sales-chatbot conversation (`ChatMessage` in
`src/models/practice.py`, as used by the chatbot). -/
structure SalesChatMessage where
  id : List Char
  conversationId : List Char
  sender : List Char
  message : List Char
  timestamp : Nat
  intent : Option (List Char) := none
deriving DecidableEq

/-- Context for sales chatbot conversations (`ChatbotContext`).  The
`appointment_config` and `practice_info` members are consulted only inside the
LLM-backed handlers, which are modelled as oracles, so they are carried
opaquely as rendered text pairs. -/
structure ChatbotContext where
  practiceId : List Char
  conversationId : List Char
  visitorInfo : List (List Char × List Char) := []
  conversationHistory : List SalesChatMessage := []
  practiceInfo : List (List Char × List Char) := []
  currentIntent : Option (List Char) := none
  collectedInfo : List (List Char × List Char) := []
deriving DecidableEq

/-- Structured chatbot response (`ChatbotResponse`). -/
structure ChatbotResponse where
  message : List Char
  intent : List Char
  requiresFollowup : Bool := false
  collectedData : List (List Char × List Char) := []
  nextAction : Option (List Char) := none
  bookingReady : Bool := false
deriving DecidableEq

/-- Python `dict` assignment `d[k] = v` on an association-list model of a
dict: an existing key is updated in place, a new key is appended. -/
def dictSet {K V : Type} [DecidableEq K] : List (K × V) → K → V → List (K × V)
  | [], k, v => [(k, v)]
  | (k', v') :: t, k, v =>
    if k' = k then (k', v) :: t else (k', v') :: dictSet t k v

/-- Python `d.update(new)`: set every pair of `new` into `d` in order. -/
def dictUpdate {K V : Type} [DecidableEq K]
    (d : List (K × V)) (new : List (K × V)) : List (K × V) :=
  new.foldl (fun acc kv => dictSet acc kv.1 kv.2) d

/-- Association-list lookup modelling Python `d[k]` / `k in d`. -/
def alookup {K V : Type} [DecidableEq K] : List (K × V) → K → Option V
  | [], _ => none
  | (k', v) :: t, k => if k' = k then some v else alookup t k

/-- The fixed `booking_keywords` list of `SalesChatbot.__init__`. -/
def bookingKeywords : List (List Char) :=
  [ "appointment".data, "schedule".data, "book".data, "available".data,
    "session".data, "consultation".data, "meeting".data, "time".data,
    "calendar".data, "availability".data ]

/-- The fixed `service_keywords` list. -/
def serviceKeywords : List (List Char) :=
  [ "therapy".data, "counseling".data, "treatment".data, "help".data,
    "services".data, "what do you do".data, "specialize".data,
    "approach".data, "methods".data ]

/-- The fixed `pricing_keywords` list. -/
def pricingKeywords : List (List Char) :=
  [ "cost".data, "price".data, "fee".data, "insurance".data, "payment".data,
    "charge".data, "how much".data, "affordable".data, "billing".data,
    "copay".data ]

/-- The fixed `emergency_keywords` list. -/
def emergencyKeywords : List (List Char) :=
  [ "emergency".data, "crisis".data, "suicide".data, "harm".data,
    "urgent".data, "help me".data ]

/-- Intent classification result dictionary of `SalesChatbot._classify_intent`. -/
structure IntentResult where
  intent : List Char
  confidence : List Char
deriving DecidableEq

/-- Embedding of `SalesChatbot._classify_intent`.  `llm` is the oracle outcome
of the DSPy `intent_classifier` call made in the fallback branch (it may raise,
hence `Except`); the keyword branches never reach it. -/
def classifyIntent (llm : Except PyErr IntentResult) (message : List Char) :
    Except PyErr IntentResult :=
  if containsAny message emergencyKeywords then
    .ok { intent := "emergency".data, confidence := "high".data }
  else if containsAny message bookingKeywords then
    .ok { intent := "booking".data, confidence := "high".data }
  else if containsAny message pricingKeywords then
    .ok { intent := "pricing".data, confidence := "medium".data }
  else if containsAny message serviceKeywords then
    .ok { intent := "services".data, confidence := "medium".data }
  else llm

/-- Fixed text of `SalesChatbot._handle_emergency`. -/
def emergencyResponseText : List Char :=
  ("I'm concerned about your safety and want to make sure you get immediate help.\n\n**For immediate support:**\n• **Crisis Text Line**: Text HOME to 741741\n• **988 Suicide & Crisis Lifeline**: Call or text 988\n• **Emergency Services**: Call 911 if you're in immediate danger\n\nOur practice staff can also help connect you with crisis resources. Would you like me to have someone call you today?").data

/-- Embedding of `SalesChatbot._handle_emergency` (a fixed pure response). -/
def handleEmergency : ChatbotResponse :=
  { message := emergencyResponseText
    intent := "emergency".data
    requiresFollowup := true
    nextAction := some "notify_staff".data }

/-- Oracle outcomes for the LLM-backed non-emergency handlers of the sales
chatbot (`_handle_booking_intent`, `_handle_services_inquiry`,
`_handle_pricing_inquiry`, `_handle_general_inquiry`): each contains a DSPy or
string-formatting step that may raise, so each is an `Except` value. -/
structure SalesHandlers where
  booking : Except PyErr ChatbotResponse
  services : Except PyErr ChatbotResponse
  pricing : Except PyErr ChatbotResponse
  general : Except PyErr ChatbotResponse

/-- Handler dispatch of `SalesChatbot.process_message` step 3. -/
def selectHandler (handlers : SalesHandlers) (intent : List Char) :
    Except PyErr ChatbotResponse :=
  if intent = "booking".data then handlers.booking
  else if intent = "services".data then handlers.services
  else if intent = "pricing".data then handlers.pricing
  else handlers.general

/-- The fixed fallback response of `SalesChatbot.process_message`'s
`except` block. -/
def salesFallbackResponse : ChatbotResponse :=
  { message := ("I apologize, but I'm having some technical difficulties. Please feel free to call us directly or try again in a moment. For urgent matters, you can reach us at our main number.").data
    intent := "error".data
    requiresFollowup := true }

/-- Handler outcome processing of `SalesChatbot.process_message`: all fallible
steps (the DSPy classifier fallback and the LLM-backed handlers) happen before
any context mutation in the source, so the context is threaded through the
non-raising tail only. -/
def salesHandlerStep (intentResult : IntentResult) (now : Nat)
    (visitorMessage : List Char) (ctx : ChatbotContext) :
    Except PyErr ChatbotResponse → ChatbotResponse × ChatbotContext
  | .error _ => (salesFallbackResponse, ctx)
  | .ok response =>
    let ctx1 := { ctx with
      currentIntent := some intentResult.intent
      collectedInfo := dictUpdate ctx.collectedInfo response.collectedData }
    let visitorMsg : SalesChatMessage :=
      { id := "msg_".data ++ Nat.toDigits 10 now
        conversationId := ctx.conversationId
        sender := "visitor".data
        message := visitorMessage
        timestamp := now
        intent := some intentResult.intent }
    let botMsg : SalesChatMessage :=
      { id := "msg_".data ++ Nat.toDigits 10 now ++ "_bot".data
        conversationId := ctx.conversationId
        sender := "bot".data
        message := response.message
        timestamp := now
        intent := some response.intent }
    let ctx2 := { ctx1 with
      conversationHistory := ctx1.conversationHistory ++ [visitorMsg, botMsg] }
    (response, ctx2)

/-- Steps 2-5 of `SalesChatbot.process_message`, given the classification
outcome: emergency early return, handler dispatch, then context update and
history append on success (the `except` branch yields the fallback with the
context untouched). -/
def salesAfterClassify (handlers : SalesHandlers) (now : Nat)
    (visitorMessage : List Char) (ctx : ChatbotContext) :
    Except PyErr IntentResult → ChatbotResponse × ChatbotContext
  | .error _ => (salesFallbackResponse, ctx)
  | .ok intentResult =>
    if intentResult.intent = "emergency".data then
      (handleEmergency, ctx)
    else
      salesHandlerStep intentResult now visitorMessage ctx
        (selectHandler handlers intentResult.intent)

/-- Embedding of `SalesChatbot.process_message`: classify, then the
emergency / handler / update pipeline, with every raising step landing in the
`except` fallback branch. -/
def salesProcessMessage (llm : Except PyErr IntentResult)
    (handlers : SalesHandlers) (now : Nat) (visitorMessage : List Char)
    (ctx : ChatbotContext) : ChatbotResponse × ChatbotContext :=
  salesAfterClassify handlers now visitorMessage ctx
    (classifyIntent llm visitorMessage)

/-! ### Patient model (`src/models/patient.py`) -/

/-- Patient personal information (`PersonalInfo`). -/
structure PersonalInfo where
  firstName : List Char
  lastName : List Char
  email : Option (List Char) := none
  phone : Option (List Char) := none
  address : Option (List Char) := none
deriving DecidableEq

/-- Patient medical information (`MedicalInfo`), fields in declaration
order; `datetime`-free fields only, as in the source. -/
structure MedicalInfo where
  primaryDiagnosis : Option (List Char) := none
  secondaryDiagnoses : List (List Char) := []
  currentMedications : List (List Char) := []
  allergies : List (List Char) := []
  medicalHistory : Option (List Char) := none
  familyMentalHealthHistory : Option (List Char) := none
  substanceUseHistory : Option (List Char) := none
  traumaHistory : Option (List Char) := none
  previousTherapyExperience : Option (List Char) := none
deriving DecidableEq

/-- Escape a character for Python `repr` of a string quoted by `q`: the
backslash and the quote character are escaped (escaping of non-printable
characters is elided from the model). -/
def pyEscapeChar (q : Char) (c : Char) : List Char :=
  if c = Char.ofNat 92 then [Char.ofNat 92, Char.ofNat 92]
  else if c = q then [Char.ofNat 92, c]
  else [c]

/-- Body of a Python string repr under quote character `q`. -/
def pyEscape (q : Char) : List Char → List Char
  | [] => []
  | c :: rest => pyEscapeChar q c ++ pyEscape q rest

/-- Python `repr` of a string: single-quoted, switching to double quotes when
the string contains a single quote but no double quote. -/
def pyReprStr (s : List Char) : List Char :=
  let sq := Char.ofNat 39
  let dq := Char.ofNat 34
  let q := if sq ∈ s ∧ ¬ dq ∈ s then dq else sq
  q :: (pyEscape q s ++ [q])

/-- Python `repr` of an `Optional[str]` value. -/
def pyReprOpt : Option (List Char) → List Char
  | none => "None".data
  | some s => pyReprStr s

/-- Python `repr` of a `List[str]` value. -/
def pyReprStrList (xs : List (List Char)) : List Char :=
  "[".data ++ joinSep ", ".data (xs.map pyReprStr) ++ "]".data

/-- Pydantic `str()` rendering of a `MedicalInfo` model:
space-separated `field=repr(value)` pairs in declaration order. -/
def medicalInfoStr (m : MedicalInfo) : List Char :=
  joinSep " ".data
    [ "primary_diagnosis=".data ++ pyReprOpt m.primaryDiagnosis,
      "secondary_diagnoses=".data ++ pyReprStrList m.secondaryDiagnoses,
      "current_medications=".data ++ pyReprStrList m.currentMedications,
      "allergies=".data ++ pyReprStrList m.allergies,
      "medical_history=".data ++ pyReprOpt m.medicalHistory,
      "family_mental_health_history=".data ++ pyReprOpt m.familyMentalHealthHistory,
      "substance_use_history=".data ++ pyReprOpt m.substanceUseHistory,
      "trauma_history=".data ++ pyReprOpt m.traumaHistory,
      "previous_therapy_experience=".data ++ pyReprOpt m.previousTherapyExperience ]

/-- The keyword list of `PatientBase.validate_risk_level`. -/
def patientCrisisKeywords : List (List Char) :=
  ["suicide".data, "self-harm".data, "crisis".data]

/-- Embedding of the `PatientBase.validate_risk_level` validator:
auto-escalate to `CRISIS` when the string rendering of the medical info
contains a crisis keyword. -/
def validateRiskLevel (medicalInfo : Option MedicalInfo) (v : RiskLevel) : RiskLevel :=
  match medicalInfo with
  | none => v
  | some mi =>
    if patientCrisisKeywords.any
        (fun k => containsSub (lowerStr (medicalInfoStr mi)) k) then
      .crisis
    else v

/-- Base patient model (`PatientBase`). -/
structure PatientBase where
  therapistId : List Char
  personalInfo : PersonalInfo
  medicalInfo : Option MedicalInfo := none
  riskLevel : RiskLevel := .low
  consentStatus : ConsentStatus := .pending
deriving DecidableEq

/-- Pydantic construction of a `PatientBase`: field assignment with the
`risk_level` validator applied (given the already-validated preceding
fields). -/
def mkPatientBase (therapistId : List Char) (personalInfo : PersonalInfo)
    (medicalInfo : Option MedicalInfo) (riskLevel : RiskLevel)
    (consentStatus : ConsentStatus) : PatientBase :=
  { therapistId := therapistId
    personalInfo := personalInfo
    medicalInfo := medicalInfo
    riskLevel := validateRiskLevel medicalInfo riskLevel
    consentStatus := consentStatus }

/-! ### Dashboard API (`api/main.py`) -/

/-- Dashboard overview statistics (`DashboardStats`) with the demo defaults.
Python float constants are modelled as rationals. -/
structure DashboardStats where
  totalConversations : Nat := 152
  conversationsChange : List Char := "+12% from last week".data
  appointmentsBooked : Nat := 24
  appointmentsChange : List Char := "+8% from last week".data
  conversionRate : Rat := 158 / 10
  conversionChange : List Char := "+3% from last week".data
  avgResponseTime : Rat := 21 / 10
  responseTimeChange : List Char := "-0.3s from last week".data
deriving DecidableEq

/-- Recent conversation card (`RecentConversation`). -/
structure RecentConversation where
  initial : List Char
  name : List Char
  preview : List Char
  status : List Char
  timeAgo : List Char
deriving DecidableEq

/-- Chatbot status card (`ChatbotStatus`) with its defaults. -/
structure ChatbotStatus where
  status : List Char := "Active".data
  model : List Char := "Claude 3.5 Sonnet".data
  knowledgeBase : List Char := "12 documents".data
  lastUpdated : List Char := "2 days ago".data
deriving DecidableEq

/-- GoHighLevel MCP configuration read from the environment. -/
structure GhlConfig where
  apiKey : Option (List Char)
  locationId : Option (List Char)
deriving DecidableEq

/-- A GHL contact as read by the dashboard handler (the handler only accesses
the `firstName`, `lastName`, `source` and `id` keys of the JSON dict; a
missing key is `none`). -/
structure GhlContact where
  firstName : Option (List Char) := none
  lastName : Option (List Char) := none
  source : Option (List Char) := none
  id : Option (List Char) := none
deriving DecidableEq

/-- Dictionary returned by `make_ghl_request`, modelled by the keys the
handlers read (`.get` of a missing key yields the default). -/
structure GhlDict where
  mock : Bool := false
  message : Option (List Char) := none
  err : Option (List Char) := none
  contacts : List GhlContact := []
  conversations : List GhlContact := []
deriving DecidableEq

/-- Outcome of the HTTP POST to the MCP server inside `make_ghl_request`. -/
inductive NetOutcome where
  | ok200 (result : GhlDict)
  | badStatus (code : Nat)
  | exn (e : PyErr)
deriving DecidableEq

/-- Embedding of `make_ghl_request`: mock dict when the API key or location id
is unconfigured, otherwise the MCP response, with every network failure
converted into an `error` dict (the function never raises). -/
def makeGhlRequest (cfg : GhlConfig) (net : NetOutcome) : GhlDict :=
  if cfg.apiKey = none ∨ cfg.locationId = none then
    { mock := true, message := some "GHL not configured, using demo data".data }
  else
    match net with
    | .ok200 result => result
    | .badStatus code =>
      { err := some ("MCP request failed: ".data ++ Nat.toDigits 10 code) }
    | .exn e =>
      { err := some ("Failed to connect to GHL MCP: ".data ++ e.msg) }

/-- Response body of `GET /api/dashboard`. -/
structure DashboardResponse where
  overview : DashboardStats
  recentConversations : List RecentConversation
  chatbotStatus : ChatbotStatus
  ghlConnected : Bool
  error : Option (List Char) := none
deriving DecidableEq

/-- Python `str(contact)` of a GHL contact dict, restricted to the modelled
keys (a key is present exactly when the option is `some`). -/
def contactStr (c : GhlContact) : List Char :=
  let entries :=
    (match c.firstName with
      | some v => [pyReprStr "firstName".data ++ ": ".data ++ pyReprStr v]
      | none => []) ++
    (match c.lastName with
      | some v => [pyReprStr "lastName".data ++ ": ".data ++ pyReprStr v]
      | none => []) ++
    (match c.source with
      | some v => [pyReprStr "source".data ++ ": ".data ++ pyReprStr v]
      | none => []) ++
    (match c.id with
      | some v => [pyReprStr "id".data ++ ": ".data ++ pyReprStr v]
      | none => [])
  "\x7b".data ++ joinSep ", ".data entries ++ "\x7d".data

/-- The two demo conversation cards of the mock branch of `get_dashboard`. -/
def demoConversations : List RecentConversation :=
  [ { initial := "S".data
      name := "Sarah Johnson".data
      preview := ("I'd like to schedule an appointment for next week").data
      status := "Completed".data
      timeAgo := "10 min ago".data },
    { initial := "M".data
      name := "Michael Chen".data
      preview := "Do you accept insurance for therapy sessions?".data
      status := "Ongoing".data
      timeAgo := "25 min ago".data } ]

/-- The demo conversation card of the `except` branch of `get_dashboard`. -/
def demoErrorConversation : RecentConversation :=
  { initial := "D".data
    name := "Demo User".data
    preview := "This is demo data - connect your GHL API to see real data".data
    status := "Demo".data
    timeAgo := "now".data }

/-- The `except` branch of `get_dashboard`: demo data with the error string. -/
def dashboardErrorResponse (e : PyErr) : DashboardResponse :=
  { overview := {}
    recentConversations := [demoErrorConversation]
    chatbotStatus := {}
    ghlConnected := false
    error := some e.msg }

/-- The `try`-block body of `get_dashboard`, given the two `make_ghl_request`
results.  `hashFn` models Python's process-randomized `hash` on strings. -/
def dashboardBody (contactsData conversationsData : GhlDict)
    (hashFn : List Char → Int) : DashboardResponse :=
  let recentAndStats : DashboardStats × List RecentConversation :=
    if contactsData.mock then
      ({}, demoConversations)
    else
      let contacts := contactsData.contacts
      let conversations := conversationsData.conversations
      let stats : DashboardStats :=
        { totalConversations := conversations.length
          appointmentsBooked :=
            (contacts.filter
              (fun c => containsSub (lowerStr (contactStr c)) "appointment".data)).length
          conversionRate := 158 / 10
          avgResponseTime := 21 / 10 }
      let recent := (contacts.take 4).map (fun c =>
        ({ initial :=
             (match c.firstName with
               | some (ch :: _) => [ch.toUpper]
               | _ => "?".data)
           name := (c.firstName.getD "Unknown".data) ++ " ".data
             ++ (c.lastName.getD "".data)
           preview := "Contact from ".data ++ (c.source.getD "website".data)
           status := "Completed".data
           timeAgo := Nat.toDigits 10 ((hashFn (c.id.getD [])).natAbs % 60)
             ++ " min ago".data } : RecentConversation))
      (stats, recent)
  { overview := recentAndStats.1
    recentConversations := recentAndStats.2
    chatbotStatus := {}
    ghlConnected := ! contactsData.mock }

/-- Embedding of the `GET /api/dashboard` handler.  The two awaited CRM calls
are modelled as `Except` values (a raised exception propagates into the
handler's `except` branch); the rest of the `try` body is pure and cannot
raise in the model. -/
def getDashboard (contactsRes conversationsRes : Except PyErr GhlDict)
    (hashFn : List Char → Int) : DashboardResponse :=
  match contactsRes with
  | .error e => dashboardErrorResponse e
  | .ok contactsData =>
    match conversationsRes with
    | .error e => dashboardErrorResponse e
    | .ok conversationsData => dashboardBody contactsData conversationsData hashFn

/-! ### Chat endpoint (`POST /api/chat/message` in `api/main.py`) -/

/-- Keyword groups of the chat endpoint's intent if-chain, in source order. -/
def chatBookingWords : List (List Char) :=
  ["appointment".data, "schedule".data, "book".data]

/-- Pricing keyword group of the chat endpoint. -/
def chatPricingWords : List (List Char) :=
  ["price".data, "cost".data, "insurance".data]

/-- Location keyword group of the chat endpoint. -/
def chatLocationWords : List (List Char) :=
  ["hours".data, "location".data, "address".data]

/-- Contact-collection keyword group of the chat endpoint. -/
def chatContactWords : List (List Char) :=
  ["name".data, "email".data, "phone".data, "contact".data]

/-- Intent classification of the `chat_message` handler: ordered
case-insensitive keyword groups with `"general"` as the fallthrough. -/
def chatIntent (userMessage : List Char) : List Char :=
  if containsAny userMessage chatBookingWords then "booking".data
  else if containsAny userMessage chatPricingWords then "pricing".data
  else if containsAny userMessage chatLocationWords then "location".data
  else if containsAny userMessage chatContactWords then "contact_collection".data
  else "general".data

/-- Response text of the `chat_message` handler for each intent branch
(the booking and contact branches depend on whether a CRM contact was
created). -/
def chatResponseText (userMessage : List Char) (contactCreated : Bool) : List Char :=
  if containsAny userMessage chatBookingWords then
    if contactCreated then
      ("Perfect! I've saved your information and someone from our team will contact you within 24 hours to schedule your appointment. What type of session are you most interested in - individual therapy, couples counseling, or an initial consultation?").data
    else
      ("I'd be happy to help you schedule an appointment! To get started, could you share your name and email address? Then I can connect you with our scheduling team.").data
  else if containsAny userMessage chatPricingWords then
    ("We accept most major insurance plans and offer competitive self-pay rates. Individual sessions typically range from $120-180. Would you like me to check your specific insurance benefits?").data
  else if containsAny userMessage chatLocationWords then
    ("We're open Monday-Friday 9am-5pm and offer both in-person and online sessions. Our main office is located at 123 Therapy Lane. Would you like directions or information about online sessions?").data
  else if containsAny userMessage chatContactWords then
    if contactCreated then
      ("Thank you! I've saved your contact information. Our team will reach out to you soon. Is there anything specific you'd like to know about our services while we're chatting?").data
    else
      ("I'd love to help you get connected with our team! Could you share your name and email address so we can follow up with you?").data
  else
    ("Thank you for reaching out! I'm here to help you learn about our therapy services and schedule an appointment. What would you like to know more about?").data

/-! ### Patient chatbot sessions (`src/api/patient_chatbot.py`) -/

/-- Patient chat session info (`PatientSession`). -/
structure PatientSession where
  sessionId : List Char
  patientId : List Char
  therapistId : List Char
  startedAt : Nat
  lastActivity : Nat
  messageCount : Nat
  consentStatus : ConsentStatus
  riskLevel : RiskLevel
deriving DecidableEq

/-- The two module-level in-memory dictionaries `active_sessions` and
`conversation_contexts`, modelled as association lists. -/
structure SessionStore where
  activeSessions : List (List Char × PatientSession) := []
  conversationContexts : List (List Char × MentalHealthContext) := []

/-- Resolved session id of a `get_patient_session` call: the `session-id`
header when present, else `f"session_{timestamp}"`. -/
def resolveSessionId (headerSessionId : Option (List Char)) (now : Nat) : List Char :=
  headerSessionId.getD ("session_".data ++ Nat.toDigits 10 now)

/-- Embedding of `get_patient_session`: resolve the session id from the
`session-id` header (defaulting to `f"session_{timestamp}"`), create the
session and its conversation context when absent, and return
`active_sessions[session_id]` with the updated store. -/
def getPatientSession (store : SessionStore) (headerSessionId : Option (List Char))
    (now : Nat) : PatientSession × SessionStore :=
  let sessionId := resolveSessionId headerSessionId now
  match alookup store.activeSessions sessionId with
  | some s => (s, store)
  | none =>
    let session : PatientSession :=
      { sessionId := sessionId
        patientId := "patient_".data ++ sessionId
        therapistId := "therapist_123".data
        startedAt := now
        lastActivity := now
        messageCount := 0
        consentStatus := .granted
        riskLevel := .low }
    let ctx : MentalHealthContext :=
      { patientId := session.patientId
        therapistId := session.therapistId
        sessionId := some sessionId
        patientRiskLevel := session.riskLevel }
    (session,
     { activeSessions := dictSet store.activeSessions sessionId session
       conversationContexts := dictSet store.conversationContexts sessionId ctx })

/-- Consistency of the in-memory session dictionaries: every stored session
has a conversation context under the same key carrying the same patient,
therapist and session identifiers. -/
def storeConsistent (store : SessionStore) : Prop :=
  ∀ sid s, alookup store.activeSessions sid = some s →
    ∃ ctx, alookup store.conversationContexts sid = some ctx ∧
      ctx.patientId = s.patientId ∧ ctx.therapistId = s.therapistId ∧
      ctx.sessionId = some s.sessionId

/-! ### HIPAA encryption (`src/core/security.py`)

`HIPAAEncryption.encrypt` is `urlsafe_b64encode(fernet.encrypt(s.encode("utf-8")))`
and `decrypt` is the inverse pipeline with every failure wrapped into
`SecurityError`.  Byte strings are `List Nat` (each element a byte), plaintext
strings are lists of Unicode codepoints.  The Fernet cipher is an
off-the-shelf primitive (the `cryptography` package keyed via
`_derive_key`), modelled as an abstract keyed cipher; base64 and UTF-8 are
implemented concretely. -/

/-- Custom exception for security-related errors (`SecurityError`). -/
structure SecurityError where
  msg : List Char
deriving DecidableEq

/-- Urlsafe base64 alphabet: sextet value to ASCII code. -/
def b64EncChar (n : Nat) : Nat :=
  if n < 26 then 65 + n
  else if n < 52 then 97 + (n - 26)
  else if n < 62 then 48 + (n - 52)
  else if n = 62 then 45
  else 95

/-- Urlsafe base64 alphabet: ASCII code to sextet value, failing on a
character outside the alphabet. -/
def b64DecChar (c : Nat) : Option Nat :=
  if 65 ≤ c ∧ c ≤ 90 then some (c - 65)
  else if 97 ≤ c ∧ c ≤ 122 then some (c - 97 + 26)
  else if 48 ≤ c ∧ c ≤ 57 then some (c - 48 + 52)
  else if c = 45 then some 62
  else if c = 95 then some 63
  else none

/-- ASCII code of the base64 padding character. -/
def b64Pad : Nat := 61

/-- Urlsafe base64 encoding of a byte string (`base64.urlsafe_b64encode`),
producing the ASCII codes of the encoded text. -/
def b64Encode : List Nat → List Nat
  | [] => []
  | [b0] => [b64EncChar (b0 / 4), b64EncChar (b0 % 4 * 16), b64Pad, b64Pad]
  | [b0, b1] =>
    [b64EncChar (b0 / 4), b64EncChar (b0 % 4 * 16 + b1 / 16),
     b64EncChar (b1 % 16 * 4), b64Pad]
  | b0 :: b1 :: b2 :: rest =>
    b64EncChar (b0 / 4) :: b64EncChar (b0 % 4 * 16 + b1 / 16)
      :: b64EncChar (b1 % 16 * 4 + b2 / 64) :: b64EncChar (b2 % 64)
      :: b64Encode rest

/-- Urlsafe base64 decoding (`base64.urlsafe_b64decode`): four characters at
a time, padding allowed only in the final group, failure on a malformed
input.  (Python additionally discards non-alphabet characters before decoding;
that laxness only changes which malformed inputs fail, not any decoded
value.) -/
def b64Decode : List Nat → Option (List Nat)
  | [] => some []
  | c0 :: c1 :: c2 :: c3 :: rest =>
    match b64DecChar c0, b64DecChar c1 with
    | some s0, some s1 =>
      if c2 = b64Pad then
        if c3 = b64Pad ∧ rest = [] ∧ s1 % 16 = 0 then
          some [s0 * 4 + s1 / 16]
        else none
      else
        match b64DecChar c2 with
        | some s2 =>
          if c3 = b64Pad then
            if rest = [] ∧ s2 % 4 = 0 then
              some [s0 * 4 + s1 / 16, s1 % 16 * 16 + s2 / 4]
            else none
          else
            match b64DecChar c3, b64Decode rest with
            | some s3, some tail =>
              some ((s0 * 4 + s1 / 16) :: (s1 % 16 * 16 + s2 / 4)
                :: (s2 % 4 * 64 + s3) :: tail)
            | _, _ => none
        | none => none
    | _, _ => none
  | _ => none

/-- UTF-8 encoding of a single Unicode codepoint (`str.encode("utf-8")`). -/
def utf8EncodeChar (n : Nat) : List Nat :=
  if n < 128 then [n]
  else if n < 2048 then [192 + n / 64, 128 + n % 64]
  else if n < 65536 then [224 + n / 4096, 128 + n / 64 % 64, 128 + n % 64]
  else [240 + n / 262144, 128 + n / 4096 % 64, 128 + n / 64 % 64, 128 + n % 64]

/-- UTF-8 encoding of a codepoint string. -/
def utf8Encode : List Nat → List Nat
  | [] => []
  | c :: cs => utf8EncodeChar c ++ utf8Encode cs

/-- UTF-8 decoding of a byte string back to codepoints
(`bytes.decode("utf-8")`), failing on malformed sequences (strict overlong
rejection is elided: it only changes which malformed inputs fail). -/
def utf8Decode : List Nat → Option (List Nat)
  | [] => some []
  | b :: rest =>
    if b < 128 then (utf8Decode rest).map (b :: ·)
    else if b < 192 then none
    else if b < 224 then
      match rest with
      | [] => none
      | b1 :: rest1 =>
        if 128 ≤ b1 ∧ b1 < 192 then
          (utf8Decode rest1).map (((b - 192) * 64 + (b1 - 128)) :: ·)
        else none
    else if b < 240 then
      match rest with
      | [] => none
      | b1 :: rest1 =>
        if 128 ≤ b1 ∧ b1 < 192 then
          match rest1 with
          | [] => none
          | b2 :: rest2 =>
            if 128 ≤ b2 ∧ b2 < 192 then
              (utf8Decode rest2).map
                (((b - 224) * 4096 + (b1 - 128) * 64 + (b2 - 128)) :: ·)
            else none
        else none
    else if b < 248 then
      match rest with
      | [] => none
      | b1 :: rest1 =>
        if 128 ≤ b1 ∧ b1 < 192 then
          match rest1 with
          | [] => none
          | b2 :: rest2 =>
            if 128 ≤ b2 ∧ b2 < 192 then
              match rest2 with
              | [] => none
              | b3 :: rest3 =>
                if 128 ≤ b3 ∧ b3 < 192 then
                  (utf8Decode rest3).map
                    (((b - 240) * 262144 + (b1 - 128) * 4096
                      + (b2 - 128) * 64 + (b3 - 128)) :: ·)
                else none
            else none
        else none
    else none

/-- Abstract keyed Fernet cipher instance (the `self.fernet` object built from
`_derive_key(encryption_key)`): encryption is total, decryption fails on
invalid tokens. -/
structure FernetModel where
  encrypt : List Nat → List Nat
  decrypt : List Nat → Option (List Nat)

/-- Embedding of `HIPAAEncryption.encrypt`: UTF-8 encode, Fernet-encrypt,
base64-encode (the final `.decode("utf-8")` of ASCII output is the identity on
the produced codes). -/
def hipaaEncrypt (f : FernetModel) (s : List Nat) : List Nat :=
  b64Encode (f.encrypt (utf8Encode s))

/-- The underlying decryption pipeline of `HIPAAEncryption.decrypt` before
exception wrapping: base64-decode, Fernet-decrypt, UTF-8 decode. -/
def hipaaDecryptPipeline (f : FernetModel) (ct : List Nat) : Option (List Nat) :=
  match b64Decode ct with
  | none => none
  | some eb =>
    match f.decrypt eb with
    | none => none
    | some pt => utf8Decode pt

/-- Embedding of `HIPAAEncryption.decrypt`: the pipeline with every underlying
failure caught and re-raised as `SecurityError`. -/
def hipaaDecrypt (f : FernetModel) (ct : List Nat) : Except SecurityError (List Nat) :=
  match hipaaDecryptPipeline f ct with
  | some s => .ok s
  | none => .error { msg := "Decryption failed".data }

/-! ### Concrete sample values used by the witness theorems -/

/-- Sample DSPy crisis prediction reporting that an immediate response is
needed. -/
def predCrisisEx : CrisisPrediction :=
  { riskAssessment := "crisis".data
    crisisIndicators := []
    immediateResponseNeeded := "true".data }

/-- Sample DSPy crisis prediction reporting no immediate response. -/
def predCalmEx : CrisisPrediction :=
  { riskAssessment := "low".data
    crisisIndicators := []
    immediateResponseNeeded := "false".data }

/-- Sample non-escalating agent response. -/
def agentCalmEx : AIResponse :=
  { message := "Thank you for sharing that with me.".data
    riskAssessment := .low }

/-- Sample mental-health conversation context. -/
def mhCtxEx : MentalHealthContext :=
  { patientId := "patient_1".data
    therapistId := "therapist_123".data }

/-- Sample sales-chatbot conversation context. -/
def salesCtxEx : ChatbotContext :=
  { practiceId := "practice_1".data
    conversationId := "conv_1".data }

/-- Sample sales handlers whose booking handler raises. -/
def handlersFailEx : SalesHandlers :=
  { booking := .error { msg := "llm unavailable".data }
    services := .error { msg := "llm unavailable".data }
    pricing := .error { msg := "llm unavailable".data }
    general := .error { msg := "llm unavailable".data } }

/-- Sample personal information record. -/
def personalInfoEx : PersonalInfo :=
  { firstName := "Jane".data, lastName := "Doe".data }

/-- Sample medical information whose rendering contains a crisis keyword. -/
def medicalInfoCrisisEx : MedicalInfo :=
  { primaryDiagnosis := some "history of suicide attempts".data }

/-- Sample medical information with no crisis keyword. -/
def medicalInfoCleanEx : MedicalInfo :=
  { primaryDiagnosis := some "generalized anxiety".data }

/-- Identity Fernet cipher: a valid abstract keyed cipher on byte strings. -/
def fernetIdEx : FernetModel :=
  { encrypt := fun bs => bs
    decrypt := fun bs => some bs }

/-! ## Theorems -/

/-- Helper: a crisis alert is produced by `processMessage` exactly when the
generated response requires escalation. -/
theorem processMessage_alert_isSome (pred : CrisisPrediction)
    (agentResult : AIResponse) (now : Nat) (msg : List Char)
    (ctx : MentalHealthContext) :
    (processMessage pred agentResult now msg ctx).2.1.isSome =
    (processMessage pred agentResult now msg ctx).1.escalationRequired := by
  cases hb : (generateTherapeuticResponse agentResult msg ctx
      (detectCrisis pred msg)).escalationRequired <;>
    simp [processMessage, hb]

/-- C1: whenever crisis detection reports that an immediate response is
needed, the response of `MentalHealthAgent.process_message` has
`risk_assessment = CRISIS` and `escalation_required = True` and a crisis alert
is returned; conversely a crisis alert is returned only when the response
requires escalation. -/
theorem crisis_escalation_contract (pred : CrisisPrediction)
    (agentResult : AIResponse) (now : Nat) (msg : List Char)
    (ctx : MentalHealthContext) :
    ((detectCrisis pred msg).immediateResponse = true →
      (processMessage pred agentResult now msg ctx).1.riskAssessment = RiskLevel.crisis ∧
      (processMessage pred agentResult now msg ctx).1.escalationRequired = true ∧
      (processMessage pred agentResult now msg ctx).2.1.isSome = true) ∧
    ((processMessage pred agentResult now msg ctx).2.1.isSome = true →
      (processMessage pred agentResult now msg ctx).1.escalationRequired = true) := by
  constructor
  · intro h
    refine ⟨?_, ?_, ?_⟩ <;>
      simp [processMessage, generateTherapeuticResponse, h, handleCrisisResponse]
  · intro h
    rw [processMessage_alert_isSome] at h
    exact h

/-- Witness for C1 at a concrete crisis prediction, message and context. -/
theorem crisis_escalation_contract_witness :
    (processMessage predCrisisEx agentCalmEx 0 "I feel hopeless".data mhCtxEx).1.riskAssessment
      = RiskLevel.crisis ∧
    (processMessage predCrisisEx agentCalmEx 0 "I feel hopeless".data mhCtxEx).2.1.isSome
      = true := by
  have h := (crisis_escalation_contract predCrisisEx agentCalmEx 0
    ("I feel hopeless".data) mhCtxEx).1 (by decide)
  exact ⟨h.1, h.2.2⟩

/-- C2: the keyword-scan stage of `_detect_crisis` computes exactly the
sublist of `crisis_keywords` whose entries occur case-insensitively as
substrings of the message, in the list's order, and every detected keyword
appears in the `crisis_indicators` of the returned result. -/
theorem keyword_scan_exact (msg : List Char) :
    List.Sublist (detectedKeywords msg) crisisKeywords ∧
    (∀ k, k ∈ detectedKeywords msg ↔
      (k ∈ crisisKeywords ∧ containsSub (lowerStr msg) (lowerStr k) = true)) ∧
    (∀ pred k, k ∈ detectedKeywords msg →
      k ∈ (detectCrisis pred msg).crisisIndicators) := by
  refine ⟨List.filter_sublist _, ?_, ?_⟩
  · intro k
    simp [detectedKeywords, List.mem_filter]
  · intro pred k hk
    simp only [detectCrisis, List.mem_dedup, List.mem_append]
    exact Or.inl hk

/-- Witness for C2: a keyword matched case-insensitively lands in the
crisis indicators of the detection result. -/
theorem keyword_scan_exact_witness :
    "kill myself".data ∈
      (detectCrisis predCalmEx "I want to KILL Myself".data).crisisIndicators := by
  exact (keyword_scan_exact ("I want to KILL Myself".data)).2.2 predCalmEx
    ("kill myself".data) (by decide)

/-- C3: `_create_crisis_alert` assigns `alert_type` by the first matching rule
in the fixed order suicide / self-harm / psychosis / general, and assigns
severity `high` for HIGH risk, `medium` for MODERATE, and `critical` in every
other case. -/
theorem crisis_alert_rules (now : Nat) (msg : List Char) (resp : AIResponse)
    (ctx : MentalHealthContext) :
    (containsAny msg alertSuicideIndicators = true →
      (createCrisisAlert now msg resp ctx).alertType = "suicide_ideation".data) ∧
    (containsAny msg alertSuicideIndicators = false →
      containsAny msg alertSelfHarmIndicators = true →
      (createCrisisAlert now msg resp ctx).alertType = "self_harm".data) ∧
    (containsAny msg alertSuicideIndicators = false →
      containsAny msg alertSelfHarmIndicators = false →
      containsAny msg alertPsychosisIndicators = true →
      (createCrisisAlert now msg resp ctx).alertType = "psychosis_indicators".data) ∧
    (containsAny msg alertSuicideIndicators = false →
      containsAny msg alertSelfHarmIndicators = false →
      containsAny msg alertPsychosisIndicators = false →
      (createCrisisAlert now msg resp ctx).alertType = "general_crisis".data) ∧
    (resp.riskAssessment = RiskLevel.high →
      (createCrisisAlert now msg resp ctx).severity = "high".data) ∧
    (resp.riskAssessment = RiskLevel.moderate →
      (createCrisisAlert now msg resp ctx).severity = "medium".data) ∧
    (resp.riskAssessment ≠ RiskLevel.high →
      resp.riskAssessment ≠ RiskLevel.moderate →
      (createCrisisAlert now msg resp ctx).severity = "critical".data) := by
  refine ⟨?_, ?_, ?_, ?_, ?_, ?_, ?_⟩
  · intro h1
    simp [createCrisisAlert, h1]
  · intro h1 h2
    simp [createCrisisAlert, h1, h2]
  · intro h1 h2 h3
    simp [createCrisisAlert, h1, h2, h3]
  · intro h1 h2 h3
    simp [createCrisisAlert, h1, h2, h3]
  · intro h1
    simp [createCrisisAlert, h1]
  · intro h1
    simp [createCrisisAlert, h1]
  · intro h1 h2
    simp [createCrisisAlert, h1, h2]

/-- Witness for C3 at a psychosis-indicator message and a LOW-risk response:
alert type falls to the psychosis rule and severity is `critical`. -/
theorem crisis_alert_rules_witness :
    (createCrisisAlert 0 "the voices are loud".data agentCalmEx mhCtxEx).alertType
      = "psychosis_indicators".data ∧
    (createCrisisAlert 0 "the voices are loud".data agentCalmEx mhCtxEx).severity
      = "critical".data := by
  have h := crisis_alert_rules 0 ("the voices are loud".data) agentCalmEx mhCtxEx
  exact ⟨h.2.2.1 (by decide) (by decide) (by decide),
    h.2.2.2.2.2.2 (by decide) (by decide)⟩

/-- C4 (counterexample): constructing a `PatientBase` does not always preserve
the given `risk_level` — with a medical info whose rendering contains
"suicide", a LOW input risk level is escalated to CRISIS by the
`validate_risk_level` validator. -/
theorem patient_risk_not_preserved_cex :
    (mkPatientBase "therapist_1".data personalInfoEx (some medicalInfoCrisisEx)
        RiskLevel.low ConsentStatus.pending).riskLevel = RiskLevel.crisis ∧
    RiskLevel.crisis ≠ RiskLevel.low := by
  constructor
  · decide
  · decide

/-- C4 (amended): constructing a `PatientBase` preserves the given
`risk_level` unless medical info is present and its lowercased string
rendering contains "suicide", "self-harm" or "crisis", in which case the risk
level is auto-escalated to CRISIS. -/
theorem patient_risk_validation (tid : List Char) (pi : PersonalInfo)
    (mi : Option MedicalInfo) (rl : RiskLevel) (cs : ConsentStatus) :
    (mi = none → (mkPatientBase tid pi mi rl cs).riskLevel = rl) ∧
    (∀ m, mi = some m →
      patientCrisisKeywords.any
        (fun k => containsSub (lowerStr (medicalInfoStr m)) k) = false →
      (mkPatientBase tid pi mi rl cs).riskLevel = rl) ∧
    (∀ m, mi = some m →
      patientCrisisKeywords.any
        (fun k => containsSub (lowerStr (medicalInfoStr m)) k) = true →
      (mkPatientBase tid pi mi rl cs).riskLevel = RiskLevel.crisis) := by
  refine ⟨?_, ?_, ?_⟩
  · intro h
    subst h
    rfl
  · intro m h hk
    subst h
    simp [mkPatientBase, validateRiskLevel, hk]
  · intro m h hk
    subst h
    simp [mkPatientBase, validateRiskLevel, hk]

/-- Witness for C4's amended statement: a clean medical info preserves a
MODERATE risk level. -/
theorem patient_risk_validation_witness :
    (mkPatientBase "therapist_1".data personalInfoEx (some medicalInfoCleanEx)
        RiskLevel.moderate ConsentStatus.pending).riskLevel = RiskLevel.moderate := by
  exact (patient_risk_validation "therapist_1".data personalInfoEx
    (some medicalInfoCleanEx) RiskLevel.moderate ConsentStatus.pending).2.1
    medicalInfoCleanEx rfl (by decide)

/-- C5: when any fallible step of `SalesChatbot.process_message` raises, the
function returns the fixed fallback response (intent `error`,
`requires_followup` true) together with the context unchanged: no
conversation-history entries gained, `collected_info` and `current_intent`
unmodified. -/
theorem sales_error_fallback (llm : Except PyErr IntentResult)
    (handlers : SalesHandlers) (now : Nat) (msg : List Char)
    (ctx : ChatbotContext) :
    salesFallbackResponse.intent = "error".data ∧
    salesFallbackResponse.requiresFollowup = true ∧
    (∀ e, classifyIntent llm msg = .error e →
      salesProcessMessage llm handlers now msg ctx = (salesFallbackResponse, ctx)) ∧
    (∀ ir e, classifyIntent llm msg = .ok ir →
      ir.intent ≠ "emergency".data →
      selectHandler handlers ir.intent = .error e →
      salesProcessMessage llm handlers now msg ctx = (salesFallbackResponse, ctx)) := by
  refine ⟨rfl, rfl, ?_, ?_⟩
  · intro e hc
    simp [salesProcessMessage, hc, salesAfterClassify]
  · intro ir e hc hi hs
    simp [salesProcessMessage, hc, salesAfterClassify, hi, hs, salesHandlerStep]

/-- Witness for C5: with a raising LLM classifier and a keyword-free message,
processing returns the fallback and leaves the context untouched. -/
theorem sales_error_fallback_witness :
    salesProcessMessage (.error { msg := "boom".data }) handlersFailEx 0
      "zzz".data salesCtxEx = (salesFallbackResponse, salesCtxEx) := by
  exact (sales_error_fallback (.error { msg := "boom".data }) handlersFailEx 0
    ("zzz".data) salesCtxEx).2.2.1 { msg := "boom".data } rfl

/-- C9: a visitor message containing an emergency keyword is classified
`emergency` with high confidence for every LLM oracle (the classifier is not
consulted), and `process_message` returns the fixed emergency response with
the context completely unchanged. -/
theorem sales_emergency_precedence (llm : Except PyErr IntentResult)
    (handlers : SalesHandlers) (now : Nat) (msg : List Char)
    (ctx : ChatbotContext) :
    containsAny msg emergencyKeywords = true →
      (∀ llmAlt, classifyIntent llmAlt msg =
        .ok { intent := "emergency".data, confidence := "high".data }) ∧
      salesProcessMessage llm handlers now msg ctx = (handleEmergency, ctx) := by
  intro h
  have hcl : ∀ llmAlt : Except PyErr IntentResult, classifyIntent llmAlt msg =
      .ok { intent := "emergency".data, confidence := "high".data } := by
    intro llmAlt
    simp [classifyIntent, h]
  refine ⟨hcl, ?_⟩
  simp [salesProcessMessage, hcl llm, salesAfterClassify]

/-- Witness for C9: the message "please help me" containing both an emergency
keyword and a booking-free text takes the emergency path. -/
theorem sales_emergency_precedence_witness :
    containsAny "please help me".data emergencyKeywords = true ∧
    salesProcessMessage (.error { msg := "boom".data }) handlersFailEx 0
      "please help me".data salesCtxEx = (handleEmergency, salesCtxEx) := by
  refine ⟨by decide, ?_⟩
  exact (sales_emergency_precedence (.error { msg := "boom".data }) handlersFailEx 0
    ("please help me".data) salesCtxEx (by decide)).2

/-- C6: `GET /api/dashboard` never propagates an exception — any error during
data gathering yields the demo response (default stats, the single demo
conversation, default chatbot status, `ghl_connected = False`, the error
string included); and when the CRM helper reports mock data because the API
key or location id is unconfigured, the handler returns the demo statistics
with `ghl_connected = False`. -/
theorem dashboard_error_fallback (contactsRes conversationsRes : Except PyErr GhlDict)
    (hashFn : List Char → Int) (cfg : GhlConfig) (net1 net2 : NetOutcome) :
    (∀ e, contactsRes = .error e →
      getDashboard contactsRes conversationsRes hashFn = dashboardErrorResponse e) ∧
    (∀ d e, contactsRes = .ok d → conversationsRes = .error e →
      getDashboard contactsRes conversationsRes hashFn = dashboardErrorResponse e) ∧
    (∀ e, (dashboardErrorResponse e).overview = {} ∧
      (dashboardErrorResponse e).recentConversations = [demoErrorConversation] ∧
      (dashboardErrorResponse e).chatbotStatus = {} ∧
      (dashboardErrorResponse e).ghlConnected = false ∧
      (dashboardErrorResponse e).error = some e.msg) ∧
    (cfg.apiKey = none ∨ cfg.locationId = none →
      (makeGhlRequest cfg net1).mock = true ∧
      (getDashboard (.ok (makeGhlRequest cfg net1)) (.ok (makeGhlRequest cfg net2))
        hashFn).overview = ({} : DashboardStats) ∧
      (getDashboard (.ok (makeGhlRequest cfg net1)) (.ok (makeGhlRequest cfg net2))
        hashFn).ghlConnected = false) := by
  refine ⟨?_, ?_, ?_, ?_⟩
  · intro e hc
    simp [getDashboard, hc]
  · intro d e hc hv
    simp [getDashboard, hc, hv]
  · intro e
    exact ⟨rfl, rfl, rfl, rfl, rfl⟩
  · intro hcfg
    have hm : (makeGhlRequest cfg net1).mock = true := by
      simp [makeGhlRequest, hcfg]
    refine ⟨hm, ?_, ?_⟩ <;>
      simp [getDashboard, dashboardBody, hm]

/-- Witness for C6 at a concrete raising contacts call and an unconfigured
CRM configuration. -/
theorem dashboard_error_fallback_witness :
    getDashboard (.error { msg := "boom".data }) (.ok {}) (fun _ => 0)
      = dashboardErrorResponse { msg := "boom".data } ∧
    (getDashboard (.ok (makeGhlRequest { apiKey := none, locationId := none } (.ok200 {})))
      (.ok (makeGhlRequest { apiKey := none, locationId := none } (.ok200 {})))
      (fun _ => 0)).ghlConnected = false := by
  have h := dashboard_error_fallback (.error { msg := "boom".data }) (.ok {})
    (fun _ => 0) { apiKey := none, locationId := none } (.ok200 {}) (.ok200 {})
  exact ⟨h.1 { msg := "boom".data } rfl, (h.2.2.2 (Or.inl rfl)).2.2⟩

/-- C7: the chat endpoint classifies intent by ordered case-insensitive
keyword groups — booking, then pricing, then location, then
contact-collection, then general — so a message containing both a booking and
a pricing keyword is always classified `booking`. -/
theorem chat_intent_rules (m : List Char) :
    (containsAny m chatBookingWords = true → chatIntent m = "booking".data) ∧
    (containsAny m chatBookingWords = false →
      containsAny m chatPricingWords = true → chatIntent m = "pricing".data) ∧
    (containsAny m chatBookingWords = false →
      containsAny m chatPricingWords = false →
      containsAny m chatLocationWords = true → chatIntent m = "location".data) ∧
    (containsAny m chatBookingWords = false →
      containsAny m chatPricingWords = false →
      containsAny m chatLocationWords = false →
      containsAny m chatContactWords = true →
      chatIntent m = "contact_collection".data) ∧
    (containsAny m chatBookingWords = false →
      containsAny m chatPricingWords = false →
      containsAny m chatLocationWords = false →
      containsAny m chatContactWords = false → chatIntent m = "general".data) ∧
    (containsAny m chatBookingWords = true →
      containsAny m chatPricingWords = true → chatIntent m = "booking".data) := by
  refine ⟨?_, ?_, ?_, ?_, ?_, ?_⟩
  · intro h1
    simp [chatIntent, h1]
  · intro h1 h2
    simp [chatIntent, h1, h2]
  · intro h1 h2 h3
    simp [chatIntent, h1, h2, h3]
  · intro h1 h2 h3 h4
    simp [chatIntent, h1, h2, h3, h4]
  · intro h1 h2 h3 h4
    simp [chatIntent, h1, h2, h3, h4]
  · intro h1 _
    simp [chatIntent, h1]

/-- Witness for C7: a message containing both a booking keyword and a pricing
keyword is classified `booking`. -/
theorem chat_intent_rules_witness :
    chatIntent "What is the price to book a session?".data = "booking".data := by
  exact (chat_intent_rules ("What is the price to book a session?".data)).2.2.2.2.2
    (by decide) (by decide)

/-- Helper: looking up the key just set in a dict model yields the new value. -/
theorem alookup_dictSet_self {K V : Type} [DecidableEq K]
    (d : List (K × V)) (k : K) (v : V) :
    alookup (dictSet d k v) k = some v := by
  induction d with
  | nil => simp [dictSet, alookup]
  | cons kv t ih =>
    obtain ⟨k', v'⟩ := kv
    by_cases h : k' = k
    · simp [dictSet, alookup, h]
    · simp [dictSet, alookup, h, ih]

/-- Helper: setting one key leaves lookups of any other key unchanged. -/
theorem alookup_dictSet_ne {K V : Type} [DecidableEq K]
    (d : List (K × V)) (k k2 : K) (v : V) (h : k2 ≠ k) :
    alookup (dictSet d k v) k2 = alookup d k2 := by
  induction d with
  | nil => simp [dictSet, alookup, Ne.symm h]
  | cons kv t ih =>
    obtain ⟨k', v'⟩ := kv
    by_cases hk : k' = k
    · subst hk
      simp [dictSet, alookup, Ne.symm h]
    · simp [dictSet, alookup, hk, ih]

/-- C8: `get_patient_session` keeps the in-memory session dictionaries
consistent — after the call the resolved session id is stored, every stored
session has a context under the same key with matching patient, therapist and
session identifiers, and a freshly created session starts with
`message_count 0`, risk LOW and consent GRANTED. -/
theorem session_store_consistency (store : SessionStore)
    (hdr : Option (List Char)) (now : Nat)
    (hinv : storeConsistent store) :
    (alookup (getPatientSession store hdr now).2.activeSessions
      (resolveSessionId hdr now) = some (getPatientSession store hdr now).1) ∧
    storeConsistent (getPatientSession store hdr now).2 ∧
    (alookup store.activeSessions (resolveSessionId hdr now) = none →
      (getPatientSession store hdr now).1.messageCount = 0 ∧
      (getPatientSession store hdr now).1.riskLevel = RiskLevel.low ∧
      (getPatientSession store hdr now).1.consentStatus = ConsentStatus.granted) := by
  cases hl : alookup store.activeSessions (resolveSessionId hdr now) with
  | some s =>
    have hgp : getPatientSession store hdr now = (s, store) := by
      simp [getPatientSession, hl]
    rw [hgp]
    refine ⟨hl, hinv, ?_⟩
    intro h0
    exact Option.noConfusion h0
  | none =>
    refine ⟨?_, ?_, ?_⟩
    · simp only [getPatientSession, hl]
      exact alookup_dictSet_self _ _ _
    · simp only [getPatientSession, hl]
      intro sid2 s2 hlk2
      by_cases he : sid2 = resolveSessionId hdr now
      · subst he
        rw [alookup_dictSet_self] at hlk2
        cases hlk2
        refine ⟨_, alookup_dictSet_self _ _ _, rfl, rfl, rfl⟩
      · rw [alookup_dictSet_ne _ _ _ _ he] at hlk2
        obtain ⟨ctx, hctx, hp, ht, hs⟩ := hinv sid2 s2 hlk2
        exact ⟨ctx, by rw [alookup_dictSet_ne _ _ _ _ he]; exact hctx, hp, ht, hs⟩
    · intro _
      simp [getPatientSession, hl]

/-- Witness for C8 starting from the empty store with an explicit header. -/
theorem session_store_consistency_witness :
    (getPatientSession {} (some "s1".data) 0).1.messageCount = 0 ∧
    (getPatientSession {} (some "s1".data) 0).1.riskLevel = RiskLevel.low ∧
    alookup (getPatientSession {} (some "s1".data) 0).2.activeSessions
      (resolveSessionId (some "s1".data) 0)
      = some (getPatientSession {} (some "s1".data) 0).1 := by
  have h0 : storeConsistent {} := by
    intro sid s hl
    simp [alookup] at hl
  have h := session_store_consistency {} (some "s1".data) 0 h0
  have hfresh := h.2.2 rfl
  exact ⟨hfresh.1, hfresh.2.1, h.1⟩

/-- Helper: decoding an alphabet character inverts encoding for sextets. -/
theorem b64DecChar_encChar : ∀ n, n < 64 → b64DecChar (b64EncChar n) = some n := by
  decide

/-- Helper: no alphabet character is the padding character. -/
theorem b64EncChar_ne_pad : ∀ n, n < 64 → b64EncChar n ≠ b64Pad := by
  decide

/-- Helper: urlsafe base64 decoding inverts encoding on byte strings. -/
theorem b64_roundtrip : ∀ (bs : List Nat), (∀ b ∈ bs, b < 256) →
    b64Decode (b64Encode bs) = some bs
  | [], _ => rfl
  | [b0], h => by
    have h0 : b0 < 256 := h b0 (by simp)
    have e0 := b64DecChar_encChar (b0 / 4) (by omega)
    have e1 := b64DecChar_encChar (b0 % 4 * 16) (by omega)
    have hm : b0 % 4 * 16 % 16 = 0 := by omega
    have hb : b0 / 4 * 4 + b0 % 4 * 16 / 16 = b0 := by omega
    simp [b64Encode, b64Decode, e0, e1, hm, hb]
    all_goals omega
  | [b0, b1], h => by
    have h0 : b0 < 256 := h b0 (by simp)
    have h1 : b1 < 256 := h b1 (by simp)
    have e0 := b64DecChar_encChar (b0 / 4) (by omega)
    have e1 := b64DecChar_encChar (b0 % 4 * 16 + b1 / 16) (by omega)
    have e2 := b64DecChar_encChar (b1 % 16 * 4) (by omega)
    have n2 := b64EncChar_ne_pad (b1 % 16 * 4) (by omega)
    have hm : b1 % 16 * 4 % 4 = 0 := by omega
    have hb0 : b0 / 4 * 4 + (b0 % 4 * 16 + b1 / 16) / 16 = b0 := by omega
    have hb1 : (b0 % 4 * 16 + b1 / 16) % 16 * 16 + b1 % 16 * 4 / 4 = b1 := by omega
    simp [b64Encode, b64Decode, e0, e1, e2, n2, hm, hb0, hb1]
    all_goals omega
  | b0 :: b1 :: b2 :: rest, h => by
    have h0 : b0 < 256 := h b0 (by simp)
    have h1 : b1 < 256 := h b1 (by simp)
    have h2 : b2 < 256 := h b2 (by simp)
    have e0 := b64DecChar_encChar (b0 / 4) (by omega)
    have e1 := b64DecChar_encChar (b0 % 4 * 16 + b1 / 16) (by omega)
    have e2 := b64DecChar_encChar (b1 % 16 * 4 + b2 / 64) (by omega)
    have e3 := b64DecChar_encChar (b2 % 64) (by omega)
    have n2 := b64EncChar_ne_pad (b1 % 16 * 4 + b2 / 64) (by omega)
    have n3 := b64EncChar_ne_pad (b2 % 64) (by omega)
    have ih := b64_roundtrip rest (fun b hb => h b (by simp [hb]))
    have hb0 : b0 / 4 * 4 + (b0 % 4 * 16 + b1 / 16) / 16 = b0 := by omega
    have hb1 : (b0 % 4 * 16 + b1 / 16) % 16 * 16 + (b1 % 16 * 4 + b2 / 64) / 4 = b1 := by
      omega
    have hb2 : (b1 % 16 * 4 + b2 / 64) % 4 * 64 + b2 % 64 = b2 := by omega
    simp [b64Encode, b64Decode, e0, e1, e2, e3, n2, n3, ih, hb0, hb1, hb2]

/-- Helper: every byte produced by the UTF-8 character encoder is below 256. -/
theorem utf8EncodeChar_lt (n : Nat) (hn : n < 1114112) :
    ∀ b ∈ utf8EncodeChar n, b < 256 := by
  intro b hb
  unfold utf8EncodeChar at hb
  by_cases h1 : n < 128
  · rw [if_pos h1] at hb
    simp only [List.mem_cons, List.not_mem_nil, or_false] at hb
    omega
  · rw [if_neg h1] at hb
    by_cases h2 : n < 2048
    · rw [if_pos h2] at hb
      simp only [List.mem_cons, List.not_mem_nil, or_false] at hb
      rcases hb with rfl | rfl <;> omega
    · rw [if_neg h2] at hb
      by_cases h3 : n < 65536
      · rw [if_pos h3] at hb
        simp only [List.mem_cons, List.not_mem_nil, or_false] at hb
        rcases hb with rfl | rfl | rfl <;> omega
      · rw [if_neg h3] at hb
        simp only [List.mem_cons, List.not_mem_nil, or_false] at hb
        rcases hb with rfl | rfl | rfl | rfl <;> omega

/-- Helper: every byte of a UTF-8 encoded codepoint string is below 256. -/
theorem utf8Encode_lt : ∀ (s : List Nat), (∀ c ∈ s, c < 1114112) →
    ∀ b ∈ utf8Encode s, b < 256
  | [], _ => by simp [utf8Encode]
  | c :: cs, h => by
    intro b hb
    simp only [utf8Encode, List.mem_append] at hb
    rcases hb with hb | hb
    · exact utf8EncodeChar_lt c (h c (by simp)) b hb
    · exact utf8Encode_lt cs (fun x hx => h x (by simp [hx])) b hb

/-- Helper: decoding the UTF-8 encoding of one codepoint in front of a byte
string peels that codepoint off. -/
theorem utf8Decode_encodeChar_append (n : Nat) (hn : n < 1114112)
    (rest : List Nat) :
    utf8Decode (utf8EncodeChar n ++ rest) = (utf8Decode rest).map (n :: ·) := by
  by_cases h1 : n < 128
  · simp only [utf8EncodeChar, if_pos h1, List.cons_append, List.nil_append]
    rw [utf8Decode.eq_def]
    dsimp only
    rw [if_pos h1]
  · by_cases h2 : n < 2048
    · have hd1 : ¬ (192 + n / 64 < 128) := by omega
      have hd2 : ¬ (192 + n / 64 < 192) := by omega
      have hd3 : 192 + n / 64 < 224 := by omega
      have hc : 128 ≤ 128 + n % 64 ∧ 128 + n % 64 < 192 := by omega
      have harith : (192 + n / 64 - 192) * 64 + (128 + n % 64 - 128) = n := by omega
      simp only [utf8EncodeChar, if_neg h1, if_pos h2, List.cons_append,
        List.nil_append]
      rw [utf8Decode.eq_def]
      dsimp only
      rw [if_neg hd1, if_neg hd2, if_pos hd3, if_pos hc]
      simp only [harith]
    · by_cases h3 : n < 65536
      · have hd1 : ¬ (224 + n / 4096 < 128) := by omega
        have hd2 : ¬ (224 + n / 4096 < 192) := by omega
        have hd3 : ¬ (224 + n / 4096 < 224) := by omega
        have hd4 : 224 + n / 4096 < 240 := by omega
        have hc1 : 128 ≤ 128 + n / 64 % 64 ∧ 128 + n / 64 % 64 < 192 := by omega
        have hc2 : 128 ≤ 128 + n % 64 ∧ 128 + n % 64 < 192 := by omega
        have harith : (224 + n / 4096 - 224) * 4096 + (128 + n / 64 % 64 - 128) * 64
            + (128 + n % 64 - 128) = n := by omega
        simp only [utf8EncodeChar, if_neg h1, if_neg h2, if_pos h3,
          List.cons_append, List.nil_append]
        rw [utf8Decode.eq_def]
        dsimp only
        rw [if_neg hd1, if_neg hd2, if_neg hd3, if_pos hd4, if_pos hc1, if_pos hc2]
        simp only [harith]
      · have hd1 : ¬ (240 + n / 262144 < 128) := by omega
        have hd2 : ¬ (240 + n / 262144 < 192) := by omega
        have hd3 : ¬ (240 + n / 262144 < 224) := by omega
        have hd4 : ¬ (240 + n / 262144 < 240) := by omega
        have hd5 : 240 + n / 262144 < 248 := by omega
        have hc1 : 128 ≤ 128 + n / 4096 % 64 ∧ 128 + n / 4096 % 64 < 192 := by omega
        have hc2 : 128 ≤ 128 + n / 64 % 64 ∧ 128 + n / 64 % 64 < 192 := by omega
        have hc3 : 128 ≤ 128 + n % 64 ∧ 128 + n % 64 < 192 := by omega
        have harith : (240 + n / 262144 - 240) * 262144
            + (128 + n / 4096 % 64 - 128) * 4096
            + (128 + n / 64 % 64 - 128) * 64 + (128 + n % 64 - 128) = n := by omega
        simp only [utf8EncodeChar, if_neg h1, if_neg h2, if_neg h3,
          List.cons_append, List.nil_append]
        rw [utf8Decode.eq_def]
        dsimp only
        rw [if_neg hd1, if_neg hd2, if_neg hd3, if_neg hd4, if_pos hd5,
          if_pos hc1, if_pos hc2, if_pos hc3]
        simp only [harith]

/-- Helper: UTF-8 decoding inverts encoding on valid codepoint strings. -/
theorem utf8_roundtrip : ∀ (s : List Nat), (∀ c ∈ s, c < 1114112) →
    utf8Decode (utf8Encode s) = some s
  | [], _ => rfl
  | c :: cs, h => by
    rw [utf8Encode]
    rw [utf8Decode_encodeChar_append c (h c (by simp))]
    rw [utf8_roundtrip cs (fun x hx => h x (by simp [hx]))]
    rfl

/-- C10: for every string (of Unicode codepoints), decrypting its encryption
under the same key recovers it, for every abstract keyed Fernet cipher whose
decryption inverts its encryption on byte strings; and whenever the underlying
pipeline fails, `decrypt` produces (only) a `SecurityError`. -/
theorem encryption_roundtrip (f : FernetModel)
    (hrt : ∀ bs, f.decrypt (f.encrypt bs) = some bs)
    (hby : ∀ bs, (∀ b ∈ bs, b < 256) → ∀ b ∈ f.encrypt bs, b < 256) :
    (∀ s : List Nat, (∀ c ∈ s, c < 1114112) →
      hipaaDecrypt f (hipaaEncrypt f s) = .ok s) ∧
    (∀ ct, hipaaDecryptPipeline f ct = none →
      ∃ e : SecurityError, hipaaDecrypt f ct = .error e) := by
  constructor
  · intro s hs
    have hb : ∀ b ∈ utf8Encode s, b < 256 := utf8Encode_lt s hs
    have h1 : b64Decode (b64Encode (f.encrypt (utf8Encode s)))
        = some (f.encrypt (utf8Encode s)) := b64_roundtrip _ (hby _ hb)
    simp [hipaaDecrypt, hipaaDecryptPipeline, hipaaEncrypt, h1, hrt,
      utf8_roundtrip s hs]
  · intro ct hn
    refine ⟨{ msg := "Decryption failed".data }, ?_⟩
    simp [hipaaDecrypt, hn]

/-- Witness for C10 with the identity cipher on the codepoints of "hi". -/
theorem encryption_roundtrip_witness :
    hipaaDecrypt fernetIdEx (hipaaEncrypt fernetIdEx [104, 105]) = .ok [104, 105] := by
  exact (encryption_roundtrip fernetIdEx (fun bs => rfl) (fun bs hb => hb)).1
    [104, 105] (by decide)

end Moonraker
